import Mathlib

set_option maxHeartbeats 1000000

/-!
Shallow embedding of the core of the sg-bus-reminder-bot repository
(src/bot.py and src/dynamodb_helper.py).

Network I/O is modelled by explicit oracle functions describing the
upstream responses; wall-clock time is passed explicitly; the process-wide
mutable caches become explicit state threaded through the functions.
Python strings are modelled as Lean strings; Python str.strip, str.lower
and the substring operator are embedded as executable functions on the
character lists (ASCII-faithful: the Unicode-only differences are outside
the scope of every claim treated here).
-/

/-! ## Python string primitives -/

/-- Whitespace characters stripped by Python str.strip (ASCII subset). -/
def isPySpace (c : Char) : Bool :=
  c == ' ' || c == '\t' || c == '\n' || c == '\r' || c == '\x0b' || c == '\x0c'

/-- Embedding of Python str.strip() (trim leading and trailing whitespace). -/
def pyStrip (s : String) : String :=
  ⟨((s.data.dropWhile isPySpace).reverse.dropWhile isPySpace).reverse⟩

/-- Embedding of Python str.lower() (ASCII case folding). -/
def pyLower (s : String) : String :=
  ⟨s.data.map Char.toLower⟩

/-- Does the character list start with the given needle? -/
def startsList : List Char → List Char → Bool
  | [], _ => true
  | _ :: _, [] => false
  | a :: as, b :: bs => a == b && startsList as bs

/-- Does the needle occur as a contiguous sublist of the haystack? -/
def subList (needle : List Char) : List Char → Bool
  | [] => needle.isEmpty
  | c :: rest => startsList needle (c :: rest) || subList needle rest

/-- Embedding of the Python substring test: needle in hay. -/
def pyIn (needle hay : String) : Bool :=
  subList needle.data hay.data

/-! ## Route cache (src/bot.py, get_bus_routes)

One row of the BusRoutes upstream response, restricted to the fields the
program reads. -/

structure RouteEntry where
  ServiceNo : String
  BusStopCode : String
deriving DecidableEq

/-- The process-wide bus_route_cache dict, service_no to route list.
Python dict assignment is modelled by prepending (lookup takes the most
recent binding). -/
abbrev RouteCache := List (String × List RouteEntry)

def lookupRoute (cache : RouteCache) (service_no : String) : Option (List RouteEntry) :=
  match cache with
  | [] => none
  | (k, v) :: rest => if k == service_no then some v else lookupRoute rest service_no

def insertRoute (cache : RouteCache) (service_no : String) (v : List RouteEntry) : RouteCache :=
  (service_no, v) :: cache

/-- Outcome of one requests.get call against the BusRoutes endpoint:
a timeout exception, another request exception, or a response carrying an
HTTP status and a body (body none models a JSON decode failure; the rows
are data.get of the value key, defaulting to the empty list). -/
inductive PageAttempt where
  | timeout
  | reqError
  | resp (status : Nat) (body : Option (List RouteEntry))

/-- Upstream oracle for the BusRoutes endpoint: the response to the
request for a given page (skip div batch_size) at a given retry attempt. -/
abbrev Upstream := Nat → Nat → PageAttempt

/-- Result of the per-page retry loop: abort makes get_bus_routes return
the empty list without caching; got carries the obtained response. -/
inductive RetryResult where
  | abort
  | got (status : Nat) (body : Option (List RouteEntry))

def MAX_RETRIES : Nat := 3

def batch_size : Nat := 500

/-- The retry loop of get_bus_routes for one page: on timeout retry while
attempts remain, else abort; on a non-timeout request error abort at once.
Also counts the requests issued. Called with remaining = MAX_RETRIES. -/
def fetchWithRetry (up : Upstream) (page : Nat) : Nat → Nat → RetryResult × Nat
  | 0, _ => (.abort, 0)
  | remaining + 1, attempt =>
    match up page attempt with
    | .resp s b => (.got s b, 1)
    | .reqError => (.abort, 1)
    | .timeout =>
      if remaining = 0 then (.abort, 1)
      else
        let r := fetchWithRetry up page remaining (attempt + 1)
        (r.1, r.2 + 1)

/-- How the pagination loop of get_bus_routes ended: aborted (return []
without writing the cache) or completed (the accumulated rows are written
to the cache — this includes early termination on a non-200 status or a
decode error, which break out of the loop). -/
inductive FetchOutcome where
  | aborted
  | completed (rs : List RouteEntry)
deriving DecidableEq

/-- The while-loop of get_bus_routes. fuel bounds the number of pages
(none models the loop not terminating, impossible for a real upstream).
Returns the outcome together with the number of network requests made. -/
def fetchPages (up : Upstream) (service_no : String) :
    Nat → List RouteEntry → Nat → Option (FetchOutcome × Nat)
  | 0, _, _ => none
  | fuel + 1, acc, page =>
    let rn := fetchWithRetry up page MAX_RETRIES 0
    match rn.1 with
    | .abort => some (.aborted, rn.2)
    | .got status body =>
      if status ≠ 200 then some (.completed acc, rn.2)
      else
        match body with
        | none => some (.completed acc, rn.2)
        | some routes =>
          if routes.isEmpty then some (.completed acc, rn.2)
          else
            let filtered := routes.filter (fun r => r.ServiceNo == service_no)
            let acc2 := acc ++ filtered
            if routes.length < batch_size then some (.completed acc2, rn.2)
            else
              match fetchPages up service_no fuel acc2 (page + 1) with
              | none => none
              | some (o, m) => some (o, rn.2 + m)

/-- Result of one call to get_bus_routes: the returned route list, the
route cache afterwards, and the number of network requests performed. -/
structure RoutesResult where
  result : List RouteEntry
  cache : RouteCache
  requests : Nat
deriving DecidableEq

/-- Embedding of get_bus_routes: cache hit returns immediately with no
requests; on a miss the pagination runs, an aborted fetch returns [] and
leaves the cache unchanged, a completed fetch writes the accumulated rows
to the cache and returns them. -/
def get_bus_routes (up : Upstream) (fuel : Nat) (cache : RouteCache)
    (service_no : String) : Option RoutesResult :=
  match lookupRoute cache service_no with
  | some rs => some ⟨rs, cache, 0⟩
  | none =>
    match fetchPages up service_no fuel [] 0 with
    | none => none
    | some (.aborted, n) => some ⟨[], cache, n⟩
    | some (.completed rs, n) => some ⟨rs, insertRoute cache service_no rs, n⟩

/-! ## Stop directory and validation layer (src/bot.py) -/

/-- One value of the all_bus_stops_cache dict built by load_all_bus_stops. -/
structure StopRec where
  code : String
  name : String
  road : String
deriving DecidableEq

/-- The all_bus_stops_cache dict, modelled by its list of values; the dict
key of each entry is its code field (load_all_bus_stops stores each record
under its own code). -/
abbrev StopDir := List StopRec

/-- Embedding of all_bus_stops_cache.get(code). -/
def lookupStop (dir : StopDir) (code : String) : Option StopRec :=
  dir.find? (fun s => s.code == code)

/-- Embedding of search_bus_stops_by_name: case-insensitive substring
match of the query against each cached stop name or road. -/
def search_bus_stops_by_name (dir : StopDir) (query : String) : List StopRec :=
  let q := pyLower query
  dir.filter (fun stop => pyIn q (pyLower stop.name) || pyIn q (pyLower stop.road))

/-- Embedding of is_stop_in_bus_route. The stateful get_bus_routes call is
abstracted by the route list it returns for each service number. -/
def is_stop_in_bus_route (getRoutes : String → List RouteEntry)
    (bus_number stop_code : String) : Bool :=
  ((getRoutes bus_number).map (fun r => r.BusStopCode)).contains stop_code

/-- user_input.isdigit() and len(user_input) == 5 (ASCII digits). -/
def isFiveDigitCode (s : String) : Bool :=
  s.data.all Char.isDigit && s.length == 5

/-- The three shapes validate_bus_stop_input can return: Python None,
the multiple-matches message string, the two-field dict of the code path,
or the full cached stop record of the single-name-match path. -/
inductive ValidateResult where
  | absent
  | message (msg : String)
  | codeName (code name : String)
  | matched (s : StopRec)
deriving DecidableEq

/-- Embedding of validate_bus_stop_input. -/
def validate_bus_stop_input (dir : StopDir) (getRoutes : String → List RouteEntry)
    (bus_number user_input : String) : ValidateResult :=
  let input := pyStrip user_input
  if isFiveDigitCode input then
    match lookupStop dir input with
    | none => .absent
    | some stop =>
      if is_stop_in_bus_route getRoutes bus_number input then
        .codeName input stop.name
      else .absent
  else
    match search_bus_stops_by_name dir input with
    | [] => .absent
    | [m] =>
      if is_stop_in_bus_route getRoutes bus_number m.code then .matched m
      else .absent
    | _ => .message ("I found multiple stops matching \"" ++ input ++
        "\".\nTry entering the exact 5-digit bus stop code.")

/-! ## Arrival computation and message rendering (src/bot.py) -/

/-- The EstimatedArrival field handed to minutes_to_arrival: missing covers
an absent key, a None value and the empty string (all falsy); unparseable
covers a datetime.fromisoformat failure; time t is a timestamp parsed to t
seconds on the epoch axis (the ISO-8601 parsing itself is abstracted). -/
inductive IsoField where
  | missing
  | unparseable
  | time (t : ℚ)
deriving DecidableEq

/-- Python int() on a rational: truncation toward zero. -/
def pyTrunc (q : ℚ) : Int :=
  if 0 ≤ q then ⌊q⌋ else ⌈q⌉

/-- Python max(a, b) on integers (returns a on ties, like Python does;
the tie value is the same either way). -/
def pyMax (a b : Int) : Int :=
  if b ≤ a then a else b

/-- Embedding of minutes_to_arrival, with the current wall-clock time (in
epoch seconds) passed explicitly. -/
def minutes_to_arrival (iso : IsoField) (now : ℚ) : Option Int :=
  match iso with
  | .missing => none
  | .unparseable => none
  | .time t => some (pyMax 0 (pyTrunc ((t - now) / 60)))

/-- The NextBus / NextBus2 sub-dicts, restricted to the field read by the
program; the empty-dict default of service.get collapses to
EstimatedArrival = missing. -/
structure NextBusInfo where
  EstimatedArrival : IsoField
deriving DecidableEq

/-- One element of the Services array of the BusArrival response,
restricted to the fields the program reads. -/
structure BusService where
  ServiceNo : String
  NextBus : NextBusInfo
  NextBus2 : NextBusInfo
deriving DecidableEq

/-- Python str() of the optional second-bus minutes, as interpolated by the
f-string (None prints as the four letters None). -/
def optMinutes : Option Int → String
  | none => "None"
  | some m => toString m

/-- The urgency if-chain of format_arrival_message. -/
def urgencyBand (m : Int) : String :=
  if m ≤ 2 then "*RUN! The bus is arriving soon!*"
  else if m ≤ 5 then "*Bus is coming shortly*"
  else "You have some time."

/-- Embedding of format_arrival_message (the literal two-character \\n
sequences of the Python source are preserved). -/
def format_arrival_message (service : Option BusService) (bus_number : String)
    (now : ℚ) : String :=
  let next_bus := match service with | some s => s.NextBus | none => ⟨.missing⟩
  let next2_bus := match service with | some s => s.NextBus2 | none => ⟨.missing⟩
  let next_arrival := minutes_to_arrival next_bus.EstimatedArrival now
  let next2_arrival := minutes_to_arrival next2_bus.EstimatedArrival now
  let msg := "🚌 *Bus " ++ bus_number ++ " Arrival Info*\\n"
  match next_arrival with
  | none => msg ++ "No arrival data available.\\n"
  | some m =>
    ((msg ++ ("Next bus: *" ++ toString m ++ " min*\\n"))
      ++ ("Second bus: *" ++ optMinutes next2_arrival ++ " min*\\n\\n"))
      ++ urgencyBand m

/-! ## Arrival query (src/bot.py, get_bus_arrival) -/

/-- Outcome of the single requests.get call of get_bus_arrival: exn covers
every raised exception (timeout, connection error, JSON decode failure —
the function catches Exception); resp carries the HTTP status and the
Services array. -/
inductive ArrivalResp where
  | exn
  | resp (status : Nat) (services : List BusService)

/-- Embedding of get_bus_arrival given the upstream response. -/
def get_bus_arrival (r : ArrivalResp) (bus_number : String) : Option BusService :=
  match r with
  | .exn => none
  | .resp status services =>
    if status ≠ 200 then none
    else services.find? (fun svc => svc.ServiceNo == bus_number)

/-! ## Scheduler (src/bot.py, check_reminders) -/

/-- One reminder dict stored in user_reminders by save_reminder. -/
structure Reminder where
  bus_number : String
  bus_stop : String
  bus_stop_name : String
  days : String
  time : String
deriving DecidableEq

/-- Network oracle for the BusArrival endpoint, keyed by the stop code
sent as BusStopCode. -/
abbrev ArrivalNet := String → ArrivalResp

/-- The body of the inner loop of check_reminders for one reminder:
skip weekdays-only reminders on weekends (weekday 5 = Saturday,
6 = Sunday, Python Monday = 0), skip unless the stored time equals the
current HH:MM, otherwise query the arrival and emit either the
could-not-fetch notice or the rendered arrival message. Returns the list
of (chat_id, text) messages sent for this reminder. -/
def processReminder (net : ArrivalNet) (now : String) (weekday : Fin 7)
    (now_q : ℚ) (chat_id : Int) (rem : Reminder) : List (Int × String) :=
  if rem.days == "weekdays" && decide (5 ≤ weekday.val) then []
  else if rem.time == now then
    match get_bus_arrival (net rem.bus_stop) rem.bus_number with
    | none => [(chat_id, "Could not fetch arrival for Bus " ++ rem.bus_number)]
    | some svc => [(chat_id, format_arrival_message (some svc) rem.bus_number now_q)]
  else []

/-- The inner for-loop of check_reminders over the reminder list of one chat. -/
def sweepReminders (net : ArrivalNet) (now : String) (weekday : Fin 7)
    (now_q : ℚ) (chat_id : Int) : List Reminder → List (Int × String)
  | [] => []
  | r :: rs =>
    processReminder net now weekday now_q chat_id r ++
      sweepReminders net now weekday now_q chat_id rs

/-- Embedding of check_reminders: the outer loop over user_reminders,
given the current local HH:MM string, weekday and epoch time. Returns the
full list of messages sent during the tick. -/
def check_reminders (net : ArrivalNet) (now : String) (weekday : Fin 7)
    (now_q : ℚ) : List (Int × List Reminder) → List (Int × String)
  | [] => []
  | (chat_id, rems) :: rest =>
    sweepReminders net now weekday now_q chat_id rems ++
      check_reminders net now weekday now_q rest

/-! ## Reminder persistence (src/dynamodb_helper.py, delete_reminder) -/

/-- One DynamoDB reminder item. -/
structure DBReminder where
  chat_id : Int
  bus_number : String
  bus_stop : String
  bus_stop_name : String
  days : String
  time : String
deriving DecidableEq

/-- The DynamoDB table, keyed by reminder_id (keys are unique in the real
table; deletion removes every pair with the given key, which coincides
with deleting the single keyed item under that uniqueness). -/
abbrev ReminderTable := List (String × DBReminder)

/-- Embedding of delete_reminder: an empty id is rejected up front without
touching the table; otherwise delete_item with ReturnValues ALL_OLD
reports whether an item with that key existed, deleting it if so. -/
def delete_reminder (table : ReminderTable) (reminder_id : String) :
    Bool × ReminderTable :=
  if reminder_id = "" then (false, table)
  else
    match table.find? (fun p => p.1 == reminder_id) with
    | some _ => (true, table.filter (fun p => p.1 != reminder_id))
    | none => (false, table)

/-! ## Concrete upstream oracles used in the closed instances below -/

/-- An upstream whose every response has HTTP status 500. -/
def upNon200 : Upstream := fun _ _ => .resp 500 none

/-- An upstream that answers every request with a 200 response whose value
array is empty (a nonexistent service number). -/
def upEmptyOk : Upstream := fun _ _ => .resp 200 (some [])

/-- An upstream that raises a non-timeout request error on every request. -/
def upReqError : Upstream := fun _ _ => .reqError

/-- An arrival oracle on which every request raises. -/
def arrDown : ArrivalNet := fun _ => .exn

/-- A weekdays reminder at 08:00, as in the scheduler example of the spec. -/
def wkdayRem : Reminder := ⟨"970", "28009", "Jurong East Int", "weekdays", "08:00"⟩

/-! ## Helper lemmas -/

theorem subList_nil (l : List Char) : subList [] l = true := by
  cases l <;> rfl

theorem lookupRoute_insert (cache : RouteCache) (s : String) (v : List RouteEntry) :
    lookupRoute (insertRoute cache s v) s = some v := by
  simp [insertRoute, lookupRoute]

theorem pyMax_zero_pyTrunc (q : ℚ) : pyMax 0 (pyTrunc q) = max 0 ⌊q⌋ := by
  unfold pyMax pyTrunc
  by_cases h : 0 ≤ q
  · have h1 : 0 ≤ ⌊q⌋ := Int.floor_nonneg.mpr h
    simp only [h, if_true]
    split
    · next h2 => exact ((max_eq_left h2).symm)
    · next h2 => exact ((max_eq_right (le_of_lt (lt_of_not_le h2))).symm)
  · have hq : q ≤ 0 := le_of_not_le h
    have hc : ⌈q⌉ ≤ 0 := Int.ceil_le.mpr (by simpa using hq)
    have hf : ⌊q⌋ ≤ 0 := Int.floor_nonpos hq
    simp only [h, if_false]
    rw [if_pos hc]
    exact (max_eq_left hf).symm

theorem minutes_to_arrival_time (now u : ℚ) :
    minutes_to_arrival (.time u) now = some (max 0 ⌊(u - now) / 60⌋) := by
  simp [minutes_to_arrival, pyMax_zero_pyTrunc]

theorem is_stop_in_bus_route_iff (getRoutes : String → List RouteEntry)
    (bus code : String) :
    is_stop_in_bus_route getRoutes bus code = true ↔
      code ∈ (getRoutes bus).map (fun r => r.BusStopCode) :=
  List.elem_iff

theorem validate_code_branch (dir : StopDir) (getRoutes : String → List RouteEntry)
    (bus input code : String)
    (hstrip : pyStrip input = code)
    (hdig : isFiveDigitCode code = true) :
    validate_bus_stop_input dir getRoutes bus input =
      match lookupStop dir code with
      | none => .absent
      | some stop =>
        if is_stop_in_bus_route getRoutes bus code then .codeName code stop.name
        else .absent := by
  simp only [validate_bus_stop_input, hstrip, hdig, if_true]

theorem validate_name_branch (dir : StopDir) (getRoutes : String → List RouteEntry)
    (bus input tin : String)
    (hstrip : pyStrip input = tin)
    (hnot : isFiveDigitCode tin = false) :
    validate_bus_stop_input dir getRoutes bus input =
      match search_bus_stops_by_name dir tin with
      | [] => .absent
      | [m] =>
        if is_stop_in_bus_route getRoutes bus m.code then .matched m else .absent
      | _ :: _ :: _ =>
        .message ("I found multiple stops matching \"" ++ tin ++
          "\".\nTry entering the exact 5-digit bus stop code.") := by
  simp only [validate_bus_stop_input, hstrip, hnot, Bool.false_eq_true, if_false]
  rcases search_bus_stops_by_name dir tin with _ | ⟨m, _ | ⟨m2, ms⟩⟩ <;> rfl

theorem search_empty_query (dir : StopDir) :
    search_bus_stops_by_name dir "" = dir := by
  unfold search_bus_stops_by_name
  apply List.filter_eq_self.mpr
  intro a _
  simp [pyIn, pyLower, subList_nil]

/-! ## Claims -/

/-- Claim C4: minutes_to_arrival returns the no-data value (none) when the
timestamp is absent, malformed or unparseable, and never raises (totality
of the embedding); for a timestamp parsing to t it returns
max 0 (floor ((t - now) / 60)), so the result is never negative; a
timestamp 90 seconds in the past yields 0 and one 3 minutes in the future
yields 3. -/
theorem claim4_minutes_to_arrival (now t : ℚ) (m : Int)
    (hm : minutes_to_arrival (.time t) now = some m) :
    minutes_to_arrival .missing now = none ∧
    minutes_to_arrival .unparseable now = none ∧
    m = max 0 ⌊(t - now) / 60⌋ ∧
    0 ≤ m ∧
    minutes_to_arrival (.time (now - 90)) now = some 0 ∧
    minutes_to_arrival (.time (now + 180)) now = some 3 := by
  have hmt : m = max 0 ⌊(t - now) / 60⌋ := by
    have := minutes_to_arrival_time now t
    rw [hm] at this
    exact Option.some_injective _ this
  refine ⟨rfl, rfl, hmt, ?_, ?_, ?_⟩
  · rw [hmt]; exact le_max_left 0 _
  · rw [minutes_to_arrival_time]
    have e : (now - 90 - now) / 60 = (-90 : ℚ) / 60 := by ring
    rw [e, show ⌊(-90 : ℚ) / 60⌋ = -2 by norm_num, max_eq_left (by norm_num)]
  · rw [minutes_to_arrival_time]
    have e : (now + 180 - now) / 60 = (3 : ℚ) := by ring
    rw [e, show ⌊(3 : ℚ)⌋ = 3 by norm_num, max_eq_right (by norm_num)]

theorem claim4_witness : minutes_to_arrival (.time ((0 : ℚ) - 90)) 0 = some 0 :=
  (claim4_minutes_to_arrival 0 180 3 (by
    have h : ((180 : ℚ) - 0) / 60 = 3 := by norm_num
    simp [minutes_to_arrival, pyTrunc, pyMax, h]
    norm_num)).2.2.2.2.1

/-- Claim C8: when the primary minutes-to-arrival is defined and equals m,
the rendered message ends in the urgency band, and the band is the
arriving-very-soon text when m is at most 2, the coming-shortly text when
m is between 3 and 5, and the neutral text otherwise; in particular 2 is
in the very-soon band, 5 in the shortly band and 6 in the neutral band. -/
theorem claim8_urgency_banding (svc : BusService) (bus : String) (now : ℚ) (m : Int)
    (h : minutes_to_arrival svc.NextBus.EstimatedArrival now = some m) :
    format_arrival_message (some svc) bus now =
      (("🚌 *Bus " ++ bus ++ " Arrival Info*\\n" ++
          ("Next bus: *" ++ toString m ++ " min*\\n"))
        ++ ("Second bus: *" ++
            optMinutes (minutes_to_arrival svc.NextBus2.EstimatedArrival now) ++
            " min*\\n\\n"))
        ++ urgencyBand m ∧
    (m ≤ 2 → urgencyBand m = "*RUN! The bus is arriving soon!*") ∧
    (2 < m → m ≤ 5 → urgencyBand m = "*Bus is coming shortly*") ∧
    (5 < m → urgencyBand m = "You have some time.") ∧
    urgencyBand 2 = "*RUN! The bus is arriving soon!*" ∧
    urgencyBand 5 = "*Bus is coming shortly*" ∧
    urgencyBand 6 = "You have some time." := by
  refine ⟨?_, ?_, ?_, ?_, by decide, by decide, by decide⟩
  · simp only [format_arrival_message, h]
  · intro h1; simp [urgencyBand, h1]
  · intro h1 h2
    have n2 : ¬ (m ≤ 2) := by omega
    simp [urgencyBand, n2, h2]
  · intro h1
    have n2 : ¬ (m ≤ 2) := by omega
    have n5 : ¬ (m ≤ 5) := by omega
    simp [urgencyBand, n2, n5]

theorem claim8_witness : urgencyBand 2 = "*RUN! The bus is arriving soon!*" :=
  (claim8_urgency_banding ⟨"970", ⟨.time 120⟩, ⟨.missing⟩⟩ "970" 0 2 (by
    have h : ((120 : ℚ) - 0) / 60 = 2 := by norm_num
    simp [minutes_to_arrival, pyTrunc, pyMax, h]
    norm_num)).2.2.2.2.1

/-- Claim C9: deleting a reminder by an id that has no stored record
(including the empty id) reports not-found (false) and leaves the stored
records entirely unchanged. -/
theorem claim9_delete_not_found (table : ReminderTable) (rid : String)
    (h : table.find? (fun p => p.1 == rid) = none) :
    delete_reminder table rid = (false, table) := by
  unfold delete_reminder
  by_cases hr : rid = ""
  · simp [hr]
  · simp [hr, h]

theorem claim9_witness :
    delete_reminder [("a", ⟨1, "970", "28009", "Jurong East Int", "everyday", "08:00"⟩)] "" =
      (false, [("a", ⟨1, "970", "28009", "Jurong East Int", "everyday", "08:00"⟩)]) ∧
    delete_reminder [("a", ⟨1, "970", "28009", "Jurong East Int", "everyday", "08:00"⟩)] "zzz" =
      (false, [("a", ⟨1, "970", "28009", "Jurong East Int", "everyday", "08:00"⟩)]) :=
  ⟨claim9_delete_not_found _ "" (by decide), claim9_delete_not_found _ "zzz" (by decide)⟩

/-- Claim C2: for an input that is exactly a 5-digit code, validateStop is
non-absent iff the code is among the stop codes of getRoutes(busNumber);
when the code is in the directory and on the route the result carries the
code and the directory name for it, and when the code is absent from the
directory the result is absent. -/
theorem claim2_code_path (dir : StopDir) (getRoutes : String → List RouteEntry)
    (bus input code : String)
    (hstrip : pyStrip input = code)
    (hdigits : isFiveDigitCode code = true) :
    (∀ stop, lookupStop dir code = some stop →
      ((is_stop_in_bus_route getRoutes bus code = true →
          validate_bus_stop_input dir getRoutes bus input = .codeName code stop.name) ∧
        (is_stop_in_bus_route getRoutes bus code = false →
          validate_bus_stop_input dir getRoutes bus input = .absent) ∧
        (validate_bus_stop_input dir getRoutes bus input ≠ .absent ↔
          code ∈ (getRoutes bus).map (fun r => r.BusStopCode)))) ∧
    (lookupStop dir code = none →
      validate_bus_stop_input dir getRoutes bus input = .absent) := by
  have hv := validate_code_branch dir getRoutes bus input code hstrip hdigits
  constructor
  · intro stop hstop
    refine ⟨?_, ?_, ?_⟩
    · intro hmem; rw [hv, hstop]; simp [hmem]
    · intro hmem; rw [hv, hstop]; simp [hmem]
    · rw [← is_stop_in_bus_route_iff getRoutes bus code, hv, hstop]
      rcases Bool.eq_false_or_eq_true (is_stop_in_bus_route getRoutes bus code) with hb | hb <;>
        simp [hb]
  · intro hnone
    rw [hv, hnone]

theorem claim2_witness :
    validate_bus_stop_input [⟨"28009", "Jurong East Int", "Jurong East Ctrl"⟩]
      (fun b => if b == "970" then [⟨"970", "28009"⟩] else []) "970" " 28009 " =
    .codeName "28009" "Jurong East Int" :=
  (((claim2_code_path [⟨"28009", "Jurong East Int", "Jurong East Ctrl"⟩]
      (fun b => if b == "970" then [⟨"970", "28009"⟩] else []) "970" " 28009 " "28009"
      (by decide) (by decide)).1
    ⟨"28009", "Jurong East Int", "Jurong East Ctrl"⟩ (by decide)).1) (by decide)

/-- Claim C7: for a free-text (non-5-digit) stop input, validateStop yields
absent on zero name matches, the multiple-matches guidance message (never a
silently chosen stop) on two or more matches, and on exactly one match that
stop subject to the route-membership check, failing to absent when the stop
is not on the route. -/
theorem claim7_name_path (dir : StopDir) (getRoutes : String → List RouteEntry)
    (bus input tin : String)
    (hstrip : pyStrip input = tin)
    (hnot : isFiveDigitCode tin = false) :
    (search_bus_stops_by_name dir tin = [] →
        validate_bus_stop_input dir getRoutes bus input = .absent) ∧
    (∀ m m2 ms, search_bus_stops_by_name dir tin = m :: m2 :: ms →
        validate_bus_stop_input dir getRoutes bus input =
          .message ("I found multiple stops matching \"" ++ tin ++
            "\".\nTry entering the exact 5-digit bus stop code.")) ∧
    (∀ m, search_bus_stops_by_name dir tin = [m] →
        ((is_stop_in_bus_route getRoutes bus m.code = true →
            validate_bus_stop_input dir getRoutes bus input = .matched m) ∧
          (is_stop_in_bus_route getRoutes bus m.code = false →
            validate_bus_stop_input dir getRoutes bus input = .absent))) := by
  have hv := validate_name_branch dir getRoutes bus input tin hstrip hnot
  refine ⟨?_, ?_, ?_⟩
  · intro hs; rw [hs] at hv; exact hv
  · intro m m2 ms hs; rw [hs] at hv; exact hv
  · intro m hs
    rw [hs] at hv
    exact ⟨fun hmem => by rw [hv]; simp [hmem], fun hmem => by rw [hv]; simp [hmem]⟩

theorem claim7_witness :
    validate_bus_stop_input
      [⟨"28009", "Jurong East Int", "Jurong East Ctrl"⟩,
        ⟨"28001", "Jurong Stop", "Jurong Rd"⟩]
      (fun _ => []) "970" " jurong " =
    .message "I found multiple stops matching \"jurong\".\nTry entering the exact 5-digit bus stop code." :=
  (claim7_name_path
      [⟨"28009", "Jurong East Int", "Jurong East Ctrl"⟩,
        ⟨"28001", "Jurong Stop", "Jurong Rd"⟩]
      (fun _ => []) "970" " jurong " "jurong" (by decide) (by decide)).2.1
    ⟨"28009", "Jurong East Int", "Jurong East Ctrl"⟩
    ⟨"28001", "Jurong Stop", "Jurong Rd"⟩ [] (by decide)

/-- Claim C10: an empty or whitespace-only input trims to the empty string
and is treated as a free-text name whose empty query matches every stop in
the directory, so with at least two stops in the directory the result is
the multiple-matches guidance message, and with exactly one stop that stop
can be silently selected subject to the route-membership check. -/
theorem claim10_blank_input (dir : StopDir) (getRoutes : String → List RouteEntry)
    (bus input : String)
    (hblank : pyStrip input = "") :
    search_bus_stops_by_name dir "" = dir ∧
    (∀ a b rest, dir = a :: b :: rest →
        validate_bus_stop_input dir getRoutes bus input =
          .message ("I found multiple stops matching \"\".\nTry entering the exact 5-digit bus stop code.")) ∧
    (∀ m, dir = [m] →
        ((is_stop_in_bus_route getRoutes bus m.code = true →
            validate_bus_stop_input dir getRoutes bus input = .matched m) ∧
          (is_stop_in_bus_route getRoutes bus m.code = false →
            validate_bus_stop_input dir getRoutes bus input = .absent))) := by
  have hv := validate_name_branch dir getRoutes bus input "" hblank (by decide)
  rw [search_empty_query dir] at hv
  refine ⟨search_empty_query dir, ?_, ?_⟩
  · intro a b rest hdir
    subst hdir
    rw [hv]
    rfl
  · intro m hdir
    subst hdir
    exact ⟨fun hmem => by rw [hv]; simp [hmem], fun hmem => by rw [hv]; simp [hmem]⟩

theorem claim10_witness :
    validate_bus_stop_input
      [⟨"28009", "Jurong East Int", "Jurong East Ctrl"⟩,
        ⟨"28001", "Jurong Stop", "Jurong Rd"⟩]
      (fun _ => []) "970" "   " =
    .message "I found multiple stops matching \"\".\nTry entering the exact 5-digit bus stop code." :=
  (claim10_blank_input
      [⟨"28009", "Jurong East Int", "Jurong East Ctrl"⟩,
        ⟨"28001", "Jurong Stop", "Jurong Rd"⟩]
      (fun _ => []) "970" "   " (by decide)).2.1
    ⟨"28009", "Jurong East Int", "Jurong East Ctrl"⟩
    ⟨"28001", "Jurong Stop", "Jurong Rd"⟩ [] rfl

/-- Claim C5: at a tick with local time now and weekday (Monday = 0), a
reminder is acted upon (a notification produced, after querying the
arrival) iff its stored time string equals now and it is not a weekdays
reminder on Saturday (5) or Sunday (6); in particular the weekdays 08:00
reminder fires Monday through Friday at exactly 08:00 and never at 08:01,
at 07:59, or on Saturday or Sunday. -/
theorem claim5_tick_match (net : ArrivalNet) (now : String) (weekday : Fin 7)
    (now_q : ℚ) (chat : Int) (rem : Reminder) :
    (processReminder net now weekday now_q chat rem ≠ [] ↔
      (rem.time = now ∧ ¬(rem.days = "weekdays" ∧ (weekday.val = 5 ∨ weekday.val = 6)))) ∧
    (weekday.val ≤ 4 → processReminder net "08:00" weekday now_q chat wkdayRem ≠ []) ∧
    processReminder net "08:00" 5 now_q chat wkdayRem = [] ∧
    processReminder net "08:00" 6 now_q chat wkdayRem = [] ∧
    processReminder net "08:01" weekday now_q chat wkdayRem = [] ∧
    processReminder net "07:59" weekday now_q chat wkdayRem = [] := by
  have hlt := weekday.isLt
  have main : ∀ (nw : String) (r : Reminder),
      processReminder net nw weekday now_q chat r ≠ [] ↔
        (r.time = nw ∧ ¬(r.days = "weekdays" ∧ 5 ≤ weekday.val)) := by
    intro nw r
    unfold processReminder
    rcases hb : (r.days == "weekdays" && decide (5 ≤ weekday.val)) with _ | _
    · rw [if_neg (by simp [hb])]
      have hb2 : ¬(r.days = "weekdays" ∧ 5 ≤ weekday.val) := by
        intro hc
        simp [hc.1, hc.2] at hb
      by_cases ht : r.time = nw
      · rcases harr : get_bus_arrival (net r.bus_stop) r.bus_number with _ | svc <;>
          simp [ht, harr, hb2]
      · have : (r.time == nw) = false := by simpa using ht
        simp [this, ht]
    · rw [if_pos (by simp [hb])]
      have hb2 : r.days = "weekdays" ∧ 5 ≤ weekday.val := by
        simpa using hb
      simp [hb2.1, hb2.2]
  refine ⟨?_, ?_, by rfl, by rfl, ?_, ?_⟩
  · rw [main now rem]
    constructor
    · rintro ⟨h1, h2⟩
      exact ⟨h1, fun hc => h2 ⟨hc.1, by omega⟩⟩
    · rintro ⟨h1, h2⟩
      exact ⟨h1, fun hc => h2 ⟨hc.1, by omega⟩⟩
  · intro h4
    rw [main "08:00" wkdayRem]
    exact ⟨rfl, fun hc => by omega⟩
  · by_contra hne
    have := ((main "08:01" wkdayRem).mp hne).1
    exact absurd this (by decide)
  · by_contra hne
    have := ((main "07:59" wkdayRem).mp hne).1
    exact absurd this (by decide)

theorem claim5_witness :
    processReminder arrDown "08:00" 2 0 1 wkdayRem ≠ [] :=
  (claim5_tick_match arrDown "08:00" 2 0 1 wkdayRem).2.1 (by decide)

/-- Claim C6: due reminders are processed independently: when the arrival
query yields no service data (which covers a raised network error and a
non-200 response), the could-not-fetch notice is emitted for that reminder
and the remaining reminders of the sweep — in the same list and for the
remaining users — are still evaluated; the sweep is compositional over
list append, so no arrival-fetch failure aborts it. -/
theorem claim6_independent_processing (net : ArrivalNet) (now : String)
    (weekday : Fin 7) (now_q : ℚ) (chat : Int) (rem : Reminder)
    (rest : List Reminder) (users : List (Int × List Reminder)) (bus : String)
    (h1 : ¬(rem.days = "weekdays" ∧ 5 ≤ weekday.val))
    (h2 : rem.time = now)
    (h3 : get_bus_arrival (net rem.bus_stop) rem.bus_number = none) :
    sweepReminders net now weekday now_q chat (rem :: rest) =
      (chat, "Could not fetch arrival for Bus " ++ rem.bus_number) ::
        sweepReminders net now weekday now_q chat rest ∧
    (∀ xs ys, sweepReminders net now weekday now_q chat (xs ++ ys) =
        sweepReminders net now weekday now_q chat xs ++
          sweepReminders net now weekday now_q chat ys) ∧
    check_reminders net now weekday now_q ((chat, rem :: rest) :: users) =
      ((chat, "Could not fetch arrival for Bus " ++ rem.bus_number) ::
          sweepReminders net now weekday now_q chat rest) ++
        check_reminders net now weekday now_q users ∧
    get_bus_arrival .exn bus = none ∧
    (∀ status services, status ≠ 200 →
        get_bus_arrival (.resp status services) bus = none) := by
  have hproc : processReminder net now weekday now_q chat rem =
      [(chat, "Could not fetch arrival for Bus " ++ rem.bus_number)] := by
    have hb : (rem.days == "weekdays" && decide (5 ≤ weekday.val)) = false := by
      rcases Bool.eq_false_or_eq_true (rem.days == "weekdays") with hbd | hbd
      · have hd : rem.days = "weekdays" := by simpa using hbd
        have hw : ¬ 5 ≤ weekday.val := fun hle => h1 ⟨hd, hle⟩
        simp [hbd, hw]
      · simp [hbd]
    simp [processReminder, hb, h2, h3]
  have happ : ∀ xs ys, sweepReminders net now weekday now_q chat (xs ++ ys) =
      sweepReminders net now weekday now_q chat xs ++
        sweepReminders net now weekday now_q chat ys := by
    intro xs ys
    induction xs with
    | nil => simp [sweepReminders]
    | cons a as ih => simp [sweepReminders, ih, List.append_assoc]
  refine ⟨?_, happ, ?_, rfl, ?_⟩
  · simp [sweepReminders, hproc]
  · simp [check_reminders, sweepReminders, hproc]
  · intro status services hs
    simp [get_bus_arrival, hs]

theorem claim6_witness :
    sweepReminders arrDown "07:30" 3 0 42
        (⟨"970", "28009", "Jurong East Int", "everyday", "07:30"⟩ ::
          [⟨"97", "11111", "Other Stop", "everyday", "07:30"⟩]) =
      (42, "Could not fetch arrival for Bus " ++ "970") ::
        sweepReminders arrDown "07:30" 3 0 42
          [⟨"97", "11111", "Other Stop", "everyday", "07:30"⟩] :=
  (claim6_independent_processing arrDown "07:30" 3 0 42
    ⟨"970", "28009", "Jurong East Int", "everyday", "07:30"⟩
    [⟨"97", "11111", "Other Stop", "everyday", "07:30"⟩] [] "x"
    (by decide) rfl (by decide)).1

/-- Claim C1 (refuted as stated, see claim1_counterexample): with the
upstream answering every request with HTTP status 500 — so the pagination
cannot complete and no timeout or request error occurs — get_bus_routes
still writes a cache entry for the service number; the claim asserts that
a fetch hitting a non-200 response leaves the cache without an entry. -/
theorem claim1_counterexample :
    get_bus_routes upNon200 1 [] "970" = some ⟨[], [("970", [])], 1⟩ ∧
    lookupRoute [("970", [])] "970" = some [] := by
  exact ⟨by decide, by decide⟩

/-- Claim C1 (amended): after any call to get_bus_routes, either the cache
maps the service number to exactly the list the call returned (the
completed-pagination case, which includes early termination on a non-200
response or a decode error with the rows accumulated so far), or the cache
is left entirely unchanged and the empty result is returned (the abort
case: a timeout that exhausted the retries, or a non-timeout request
error). -/
theorem claim1_cache_integrity (up : Upstream) (fuel : Nat) (cache : RouteCache)
    (s : String) (r : RoutesResult)
    (h : get_bus_routes up fuel cache s = some r) :
    lookupRoute r.cache s = some r.result ∨ (r.cache = cache ∧ r.result = []) := by
  unfold get_bus_routes at h
  rcases hl : lookupRoute cache s with _ | rs
  · rw [hl] at h
    rcases hf : fetchPages up s fuel [] 0 with _ | ⟨o, n⟩
    · rw [hf] at h
      exact absurd h (by simp)
    · rw [hf] at h
      cases o with
      | aborted =>
        have hr : r = ⟨[], cache, n⟩ := by
          have := Option.some_injective _ h
          exact this.symm
        right
        rw [hr]
        exact ⟨rfl, rfl⟩
      | completed rs =>
        have hr : r = ⟨rs, insertRoute cache s rs, n⟩ := by
          have := Option.some_injective _ h
          exact this.symm
        left
        rw [hr]
        exact lookupRoute_insert cache s rs
  · rw [hl] at h
    have hr : r = ⟨rs, cache, 0⟩ := by
      have := Option.some_injective _ h
      exact this.symm
    left
    rw [hr]
    exact hl

theorem claim1_witness :
    lookupRoute (RoutesResult.mk [] [("970", [])] 1).cache "970" =
        some (RoutesResult.mk [] [("970", [])] 1).result ∨
      ((RoutesResult.mk [] [("970", [])] 1).cache = [] ∧
        (RoutesResult.mk [] [("970", [])] 1).result = []) :=
  claim1_cache_integrity upNon200 1 [] "970" ⟨[], [("970", [])], 1⟩ (by decide)

/-- Claim C3: once a get_bus_routes call completes a pagination for a
service number (including an empty one), any later call for that number —
under any upstream behaviour and any fuel, hence with zero network
requests — returns the identical result with a request count of zero and
leaves the cache unchanged. -/
theorem claim3_memoized (up up2 : Upstream) (fuel fuel2 : Nat)
    (cache : RouteCache) (s : String) (rs : List RouteEntry) (n : Nat)
    (hmiss : lookupRoute cache s = none)
    (hdone : fetchPages up s fuel [] 0 = some (.completed rs, n)) :
    get_bus_routes up fuel cache s = some ⟨rs, insertRoute cache s rs, n⟩ ∧
    get_bus_routes up2 fuel2 (insertRoute cache s rs) s =
      some ⟨rs, insertRoute cache s rs, 0⟩ := by
  constructor
  · unfold get_bus_routes
    rw [hmiss, hdone]
  · unfold get_bus_routes
    rw [lookupRoute_insert]

theorem claim3_witness :
    get_bus_routes upEmptyOk 1 [] "999" = some ⟨[], [("999", [])], 1⟩ ∧
    get_bus_routes upReqError 0 [("999", [])] "999" =
      some ⟨[], [("999", [])], 0⟩ :=
  claim3_memoized upEmptyOk upReqError 1 0 [] "999" [] 1 rfl (by decide)
